import Mathlib

/-!
Shallow embedding of `src/ai_orchestrator.py` (Switching Cost Facilitation
AI Agent, core orchestrator) and proofs about it.

Configuration documents are JSON-like values (`Value`).  Python exceptions
are modelled with `Except PyError`.  Machine arithmetic is exact: Python
integers are unbounded, so they are embedded as `Int`.
-/

namespace SwitchingCost

/-- JSON-like values, as produced by `json.load` and manipulated by the
orchestrator.  Dictionaries are association lists in insertion order
(Python 3.7+ dicts preserve insertion order). -/
inductive Value where
  | str : String → Value
  | int : Int → Value
  | list : List Value → Value
  | dict : List (String × Value) → Value

/-- Python exceptions that the embedded code can raise. -/
inductive PyError where
  | keyError (key : String)
  | typeError (msg : String)
  | valueError (msg : String)
  | attributeError (msg : String)
deriving DecidableEq, Repr

/-- First-match lookup in an association list: Python `k in d` / `d[k]` /
`d.get(k)` semantics (keys in a Python dict are unique; first match is the
only match). -/
def dictLookup (d : List (String × Value)) (k : String) : Option Value :=
  match d with
  | [] => none
  | (k', v) :: rest => if k' = k then some v else dictLookup rest k

/-- Python `v.get(key, default)`: succeeds on dicts, raises
`AttributeError` on any non-dict value. -/
def Value.pyGet (v : Value) (key : String) (default : Value) : Except PyError Value :=
  match v with
  | .dict d =>
      match dictLookup d key with
      | some x => .ok x
      | none => .ok default
  | _ => .error (.attributeError "get")

/-- Python `v[key]` with a string key: dict lookup raising `KeyError` when
the key is absent, `TypeError` on non-dict values. -/
def Value.pyIndex (v : Value) (key : String) : Except PyError Value :=
  match v with
  | .dict d =>
      match dictLookup d key with
      | some x => .ok x
      | none => .error (.keyError key)
  | _ => .error (.typeError "indexing with a string key")

/-- Lookup inside a `Value` known to be a dict (utility for stating
theorems; `none` on non-dicts). -/
def Value.lookupKey (v : Value) (key : String) : Option Value :=
  match v with
  | .dict d => dictLookup d key
  | _ => none

/-- `barrier.get("severity", 5)` followed by the arithmetic use of the
result: an integer value is taken as-is, an absent key yields the default
5, and a non-integer value is modelled as the `TypeError` that the
subsequent comparison / arithmetic on it raises in Python. -/
def getSeverity (v : Value) : Except PyError Int := do
  let sv ← v.pyGet "severity" (.int 5)
  match sv with
  | .int n => .ok n
  | _ => .error (.typeError "severity is not an integer")

/-- The `cost_ranges` dict literal of `_estimate_barrier_cost`, in source
(insertion) order. -/
def cost_ranges : List ((Int × Int) × String) :=
  [((1, 3), "$10K-$25K"),
   ((4, 6), "$25K-$75K"),
   ((7, 8), "$75K-$150K"),
   ((9, 10), "$150K-$300K")]

/-- The `for range_tuple, cost_range in cost_ranges.items()` loop:
first matching inclusive range wins, fallthrough returns "$50K-$100K". -/
def costRangeLoop (severity : Int) : List ((Int × Int) × String) → String
  | [] => "$50K-$100K"
  | (range_tuple, cost_range) :: rest =>
      if range_tuple.1 ≤ severity ∧ severity ≤ range_tuple.2 then cost_range
      else costRangeLoop severity rest

/-- `SwitchingCostOrchestrator._estimate_barrier_cost`. -/
def _estimate_barrier_cost (barrier : Value) : Except PyError String := do
  let severity ← getSeverity barrier
  return costRangeLoop severity cost_ranges

/-- `SwitchingCostOrchestrator._calculate_timeline_impact`. -/
def _calculate_timeline_impact (barrier : Value) : Except PyError String := do
  let severity ← getSeverity barrier
  if severity ≤ 3 then return "2-4_weeks"
  else if severity ≤ 6 then return "1-2_months"
  else if severity ≤ 8 then return "2-4_months"
  else return "4-6_months"

/-- `SwitchingCostOrchestrator._calculate_success_probability`:
`min(90, 40 + (severity * 5))`. -/
def _calculate_success_probability (vulnerability : Value) : Except PyError Int := do
  let severity ← getSeverity vulnerability
  return min 90 (40 + severity * 5)

/-- `SwitchingCostOrchestrator._determine_optimal_timing`. -/
def _determine_optimal_timing (_vulnerability : Value) : String :=
  "contract_renewal_period"

/-- `SwitchingAnalysisRequest` dataclass. -/
structure SwitchingAnalysisRequest where
  industry : String
  competitor : String
  account_profile : Value
  analysis_depth : String := "comprehensive"
  timeline_urgency : String := "standard"

/-- `SwitchingStrategy` dataclass: the terminal strategy artifact. -/
structure SwitchingStrategy where
  barriers : List Value
  opportunities : List Value
  roadmap : Value
  roi_analysis : Value
  success_metrics : Value
  executive_summary : String

/-- `ConfigurationManager` after its constructor has run: the loaded
industry templates and competitor profiles, keyed by file stem.  The
file-system loading itself is the external configuration layer. -/
structure ConfigurationManager where
  industry_templates : List (String × Value)
  competitive_profiles : List (String × Value)

/-- `ConfigurationManager._default_competitor_profile`. -/
def _default_competitor_profile : Value :=
  .dict [("competitor_type", .str "unknown"),
         ("market_position", .str "undefined"),
         ("competitive_assessment",
           .dict [("strengths", .list [.str "market_presence"]),
                  ("weaknesses", .list [.str "unknown_vulnerabilities"]),
                  ("vulnerabilities", .list [])])]

/-- `ConfigurationManager.get_industry_config`: raises `ValueError` when
the industry key is unknown, no default substitution. -/
def get_industry_config (cm : ConfigurationManager) (industry : String) :
    Except PyError Value :=
  match dictLookup cm.industry_templates industry with
  | none => .error (.valueError ("Industry template \x27" ++ industry ++ "\x27 not found"))
  | some v => .ok v

/-- `ConfigurationManager.get_competitor_profile`: falls back to the fixed
default profile for an unknown competitor key, never raises. -/
def get_competitor_profile (cm : ConfigurationManager) (competitor : String) : Value :=
  match dictLookup cm.competitive_profiles competitor with
  | some v => v
  | none => _default_competitor_profile

/-- Body of the `for barrier_template in ...` loop of
`_analyze_switching_barriers`: the `barrier` dict literal, whose entries
are evaluated in source order (a missing key raises `KeyError` before the
later helper calls run). -/
def buildBarrier (barrier_template : Value) : Except PyError Value := do
  let category ← barrier_template.pyIndex "category"
  let name ← barrier_template.pyIndex "name"
  let severity ← barrier_template.pyIndex "severity"
  let description ← barrier_template.pyIndex "description"
  let mitigation_strategies ← barrier_template.pyIndex "mitigation_strategies"
  let estimated_cost ← _estimate_barrier_cost barrier_template
  let timeline_impact ← _calculate_timeline_impact barrier_template
  return .dict [("category", category),
                ("name", name),
                ("severity", severity),
                ("description", description),
                ("mitigation_strategies", mitigation_strategies),
                ("estimated_cost", .str estimated_cost),
                ("timeline_impact", .str timeline_impact)]

/-- `SwitchingCostOrchestrator._analyze_switching_barriers`.  Iterating a
present value that is not a JSON array is modelled as the `TypeError` the
loop body's string indexing raises on its elements. -/
def _analyze_switching_barriers (_request : SwitchingAnalysisRequest)
    (industry_config : Value) : Except PyError (List Value) := do
  let sb ← industry_config.pyGet "switching_barriers" (.list [])
  match sb with
  | .list templates => templates.mapM buildBarrier
  | _ => .error (.typeError "switching_barriers is not a sequence of dicts")

/-- Body of the `for vulnerability in ...` loop of
`_identify_competitive_opportunities`: the `opportunity` dict literal in
source evaluation order. -/
def buildOpportunity (vulnerability : Value) : Except PyError Value := do
  let vulnerability_type ← vulnerability.pyIndex "category"
  let description ← vulnerability.pyIndex "description"
  let severity ← vulnerability.pyIndex "severity"
  let exploitation_strategy ← vulnerability.pyIndex "exploitation_strategy"
  let success_probability ← _calculate_success_probability vulnerability
  return .dict [("vulnerability_type", vulnerability_type),
                ("description", description),
                ("severity", severity),
                ("exploitation_strategy", exploitation_strategy),
                ("success_probability", .int success_probability),
                ("recommended_timing", .str (_determine_optimal_timing vulnerability))]

/-- `SwitchingCostOrchestrator._identify_competitive_opportunities`. -/
def _identify_competitive_opportunities (_request : SwitchingAnalysisRequest)
    (competitor_profile : Value) : Except PyError (List Value) := do
  let ca ← competitor_profile.pyGet "competitive_assessment" (.dict [])
  let vulns ← ca.pyGet "vulnerabilities" (.list [])
  match vulns with
  | .list vs => vs.mapM buildOpportunity
  | _ => .error (.typeError "vulnerabilities is not a sequence of dicts")

/-- Python `str.title()` on the ASCII strings used here: a letter that
follows a non-letter is uppercased, a letter that follows a letter is
lowercased, any other character is kept. -/
def pyTitleGo (prevAlpha : Bool) : List Char → List Char
  | [] => []
  | c :: cs =>
      if c.isAlpha then
        (if prevAlpha then c.toLower else c.toUpper) :: pyTitleGo true cs
      else c :: pyTitleGo false cs

/-- `s.replace("_", " ").title()` as used for phase and deliverable names. -/
def pyTitleUnderscores (s : String) : String :=
  String.mk (pyTitleGo false (s.replace "_" " ").data)

/-- The `activity_templates` dict literal of `_generate_phase_activities`,
in source order. -/
def activity_templates : List (String × List String) :=
  [("phase_1_foundation",
    ["Requirements analysis and stakeholder alignment",
     "Technical architecture assessment",
     "Migration planning and resource allocation"]),
   ("phase_2_parallel_operation",
    ["Parallel system setup and configuration",
     "Data migration and validation testing",
     "User training and change management"]),
   ("phase_3_full_migration",
    ["Complete system cutover",
     "Business process optimization",
     "Performance monitoring and adjustment"])]

/-- `SwitchingCostOrchestrator._generate_phase_activities`:
`activity_templates.get(phase_name, ["Custom phase activities"])`. -/
def _generate_phase_activities (phase_name : String) (_config : Value) : List String :=
  (activity_templates.lookup phase_name).getD ["Custom phase activities"]

/-- `SwitchingCostOrchestrator._define_phase_deliverables`. -/
def _define_phase_deliverables (phase_name : String) : List String :=
  [pyTitleUnderscores phase_name ++ " completion report",
   "Stakeholder sign-off",
   "Next phase readiness assessment"]

/-- `SwitchingCostOrchestrator._establish_phase_criteria`. -/
def _establish_phase_criteria (_phase_name : String) : List String :=
  ["All deliverables completed", "Stakeholder approval received", "Success metrics achieved"]

/-- The `phase` dict literal built for each `(phase_name, duration)` item
of `timeline_phases`. -/
def buildPhase (industry_config : Value) (entry : String × Value) : Value :=
  .dict [("name", .str (pyTitleUnderscores entry.1)),
         ("duration", entry.2),
         ("key_activities", .list ((_generate_phase_activities entry.1 industry_config).map .str)),
         ("deliverables", .list ((_define_phase_deliverables entry.1).map .str)),
         ("success_criteria", .list ((_establish_phase_criteria entry.1).map .str))]

/-- `SwitchingCostOrchestrator._generate_migration_roadmap`.  Iterating
`.items()` of a present non-dict `timeline_phases` value is modelled as
the `AttributeError` Python raises. -/
def _generate_migration_roadmap (_request : SwitchingAnalysisRequest)
    (industry_config : Value) : Except PyError Value := do
  let timeline_phases ← industry_config.pyGet "timeline_phases" (.dict [])
  let total_timeline ← industry_config.pyGet "typical_switching_timeline" (.str "6-12_months")
  match timeline_phases with
  | .dict phases =>
      return .dict [("total_timeline", total_timeline),
                    ("phases", .list (phases.map (buildPhase industry_config))),
                    ("critical_milestones", .list []),
                    ("resource_requirements", .dict []),
                    ("risk_mitigation_plan", .dict [])]
  | _ => .error (.attributeError "items")

/-- `SwitchingCostOrchestrator._calculate_direct_costs`. -/
def _calculate_direct_costs (_config : Value) : Value :=
  .dict [("software_licensing", .str "$50K-$150K"),
         ("implementation_services", .str "$75K-$200K"),
         ("training_programs", .str "$25K-$75K"),
         ("data_migration", .str "$30K-$100K")]

/-- `SwitchingCostOrchestrator._calculate_indirect_costs`. -/
def _calculate_indirect_costs (_config : Value) : Value :=
  .dict [("productivity_loss", .str "$100K-$250K"),
         ("change_management", .str "$50K-$125K"),
         ("risk_mitigation", .str "$25K-$75K")]

/-- `SwitchingCostOrchestrator._calculate_opportunity_costs`. -/
def _calculate_opportunity_costs (_config : Value) : Value :=
  .dict [("delayed_benefits", .str "$200K-$500K"),
         ("competitive_disadvantage", .str "$100K-$300K")]

/-- `SwitchingCostOrchestrator._project_efficiency_benefits`. -/
def _project_efficiency_benefits : Value :=
  .dict [("process_automation", .str "40% efficiency improvement"),
         ("reduced_manual_effort", .str "60% time savings"),
         ("improved_accuracy", .str "95% error reduction")]

/-- `SwitchingCostOrchestrator._project_cost_savings`. -/
def _project_cost_savings : Value :=
  .dict [("operational_savings", .str "$300K annually"),
         ("maintenance_reduction", .str "$150K annually"),
         ("compliance_efficiency", .str "$100K annually")]

/-- `SwitchingCostOrchestrator._project_revenue_benefits`. -/
def _project_revenue_benefits : Value :=
  .dict [("faster_time_to_market", .str "$500K opportunity"),
         ("improved_customer_experience", .str "$750K retention value"),
         ("new_market_capabilities", .str "$1M expansion potential")]

/-- `SwitchingCostOrchestrator._identify_strategic_benefits`. -/
def _identify_strategic_benefits : Value :=
  .list [.str "Competitive differentiation",
         .str "Market leadership positioning",
         .str "Innovation platform foundation",
         .str "Strategic partnership opportunities"]

/-- `SwitchingCostOrchestrator._assess_implementation_risks`. -/
def _assess_implementation_risks : Value :=
  .list [.dict [("risk", .str "migration_complexity"), ("probability", .str "medium"),
                ("impact", .str "high"), ("mitigation", .str "phased_approach")],
         .dict [("risk", .str "user_adoption"), ("probability", .str "medium"),
                ("impact", .str "medium"), ("mitigation", .str "extensive_training")],
         .dict [("risk", .str "data_integrity"), ("probability", .str "low"),
                ("impact", .str "high"), ("mitigation", .str "parallel_validation")]]

/-- `SwitchingCostOrchestrator._assess_market_risks`. -/
def _assess_market_risks : Value :=
  .list [.dict [("risk", .str "competitive_response"), ("probability", .str "high"),
                ("impact", .str "medium"), ("mitigation", .str "rapid_execution")],
         .dict [("risk", .str "market_conditions"), ("probability", .str "low"),
                ("impact", .str "medium"), ("mitigation", .str "flexible_timeline")]]

/-- `SwitchingCostOrchestrator._define_risk_mitigation`. -/
def _define_risk_mitigation : Value :=
  .list [.str "Comprehensive testing and validation",
         .str "Stakeholder communication and training",
         .str "Contingency planning and rollback procedures",
         .str "Continuous monitoring and optimization"]

/-- `SwitchingCostOrchestrator._calculate_roi_analysis`: the `roi_analysis`
dict literal.  Nothing in the body can raise, so it is a total function. -/
def _calculate_roi_analysis (_request : SwitchingAnalysisRequest)
    (industry_config : Value) : Value :=
  .dict [("switching_costs",
           .dict [("direct_costs", _calculate_direct_costs industry_config),
                  ("indirect_costs", _calculate_indirect_costs industry_config),
                  ("opportunity_costs", _calculate_opportunity_costs industry_config)]),
         ("expected_benefits",
           .dict [("efficiency_gains", _project_efficiency_benefits),
                  ("cost_savings", _project_cost_savings),
                  ("revenue_enhancement", _project_revenue_benefits),
                  ("strategic_advantages", _identify_strategic_benefits)]),
         ("financial_projections",
           .dict [("break_even_months", .int 18),
                  ("roi_percentage", .int 275),
                  ("net_present_value", .int 2500000),
                  ("payback_period", .str "15_months")]),
         ("risk_assessment",
           .dict [("implementation_risks", _assess_implementation_risks),
                  ("market_risks", _assess_market_risks),
                  ("mitigation_strategies", _define_risk_mitigation)])]

/-- `SwitchingCostOrchestrator._define_success_metrics`. -/
def _define_success_metrics (industry_config : Value) : Except PyError Value :=
  industry_config.pyGet "success_metrics"
    (.list [.str "migration_completion_time",
            .str "customer_satisfaction_score",
            .str "business_continuity_maintenance",
            .str "cost_reduction_achievement"])

mutual

/-- Python `str()` as used by f-string interpolation: a string is embedded
as-is, an integer in decimal, containers via their `repr`. -/
def pyStr : Value → String
  | .str s => s
  | .int n => toString n
  | .list xs => "[" ++ pyReprList xs ++ "]"
  | .dict d => "\x7b" ++ pyReprDict d ++ "\x7d"

/-- Python `repr()` for the embedded values (strings quoted). -/
def pyRepr : Value → String
  | .str s => "\x27" ++ s ++ "\x27"
  | .int n => toString n
  | .list xs => "[" ++ pyReprList xs ++ "]"
  | .dict d => "\x7b" ++ pyReprDict d ++ "\x7d"

/-- Comma-separated `repr` of list elements. -/
def pyReprList : List Value → String
  | [] => ""
  | [x] => pyRepr x
  | x :: y :: xs => pyRepr x ++ ", " ++ pyReprList (y :: xs)

/-- Comma-separated `repr` of dict entries. -/
def pyReprDict : List (String × Value) → String
  | [] => ""
  | [(k, v)] => "\x27" ++ k ++ "\x27: " ++ pyRepr v
  | (k, v) :: e :: xs => "\x27" ++ k ++ "\x27: " ++ pyRepr v ++ ", " ++ pyReprDict (e :: xs)

end

/-- The three-character sequence that precedes each Key Findings line in
the source file's summary template. -/
def bulletMark : String := "‚Ä¢"

/-- `SwitchingCostOrchestrator._generate_executive_summary`: the f-string
template, interpolations evaluated left to right, followed by `.strip()`.
The four partial results arrive in task order. -/
def _generate_executive_summary (barriers opportunities : List Value)
    (roadmap roi : Value) : Except PyError String := do
  let total_timeline ← roadmap.pyGet "total_timeline" (.str "N/A")
  let fp1 ← roi.pyIndex "financial_projections"
  let roi_percentage ← fp1.pyIndex "roi_percentage"
  let fp2 ← roi.pyIndex "financial_projections"
  let break_even_months ← fp2.pyIndex "break_even_months"
  let ind := "        "
  return (String.intercalate "\n"
    ["",
     ind ++ "EXECUTIVE SUMMARY - SWITCHING COST FACILITATION ANALYSIS",
     ind,
     ind ++ "Strategic Opportunity: High-probability competitive displacement with structured switching facilitation.",
     ind,
     ind ++ "Key Findings:",
     ind ++ bulletMark ++ " " ++ toString barriers.length ++ " primary switching barriers identified with systematic mitigation strategies",
     ind ++ bulletMark ++ " " ++ toString opportunities.length ++ " competitive vulnerabilities available for exploitation",
     ind ++ bulletMark ++ " " ++ pyStr total_timeline ++ " estimated timeline for complete migration",
     ind ++ bulletMark ++ " " ++ pyStr roi_percentage ++ "% projected ROI with " ++ pyStr break_even_months ++ "-month break-even",
     ind,
     ind ++ "Recommendation: Proceed with comprehensive switching facilitation strategy leveraging identified competitive weaknesses and systematic barrier reduction approach.",
     ind]).trim

/-- `SwitchingCostOrchestrator.analyze_switching_scenario` minus the
wall-clock observation: configuration resolution, the four analysis
tasks, and strategy synthesis.  `asyncio.gather` on coroutines that never
await is sequential execution in task-list order with the first raised
exception propagated unchanged, which is exactly this `Except` chain. -/
def analyze_scenario_core (cm : ConfigurationManager)
    (request : SwitchingAnalysisRequest) : Except PyError SwitchingStrategy := do
  let industry_config ← get_industry_config cm request.industry
  let competitor_profile := get_competitor_profile cm request.competitor
  let barriers ← _analyze_switching_barriers request industry_config
  let opportunities ← _identify_competitive_opportunities request competitor_profile
  let roadmap ← _generate_migration_roadmap request industry_config
  let roi := _calculate_roi_analysis request industry_config
  let success_metrics ← _define_success_metrics industry_config
  let executive_summary ← _generate_executive_summary barriers opportunities roadmap roi
  return { barriers := barriers,
           opportunities := opportunities,
           roadmap := roadmap,
           roi_analysis := roi,
           success_metrics := success_metrics,
           executive_summary := executive_summary }

/-- `analyze_switching_scenario` with the two `time.time()` readings made
explicit inputs: the returned strategy (first component) together with the
diagnostic lines printed (second component).  The elapsed-time print only
happens on the success path, after the strategy has been built. -/
def analyze_switching_scenario_timed (start_time end_time : Nat)
    (cm : ConfigurationManager) (request : SwitchingAnalysisRequest) :
    Except PyError SwitchingStrategy × List String :=
  match analyze_scenario_core cm request with
  | .error e => (.error e, [])
  | .ok strategy =>
      (.ok strategy,
       ["Analysis completed in " ++ toString (end_time - start_time) ++ " seconds"])

/-- `SwitchingCostOrchestrator.analyze_switching_scenario`: the value
returned to the caller (the timing observation is diagnostic output). -/
def analyze_switching_scenario (cm : ConfigurationManager)
    (request : SwitchingAnalysisRequest) : Except PyError SwitchingStrategy :=
  (analyze_switching_scenario_timed 0 0 cm request).1

/-! ## Spec-side bucket tables (for refinement statements) -/

/-- The estimated-cost bucket table as the specification words it:
[1,3]→"$10K-$25K", [4,6]→"$25K-$75K", [7,8]→"$75K-$150K",
[9,10]→"$150K-$300K", anything outside [1,10]→"$50K-$100K". -/
def costBucketSpec (s : Int) : String :=
  if 1 ≤ s ∧ s ≤ 3 then "$10K-$25K"
  else if 4 ≤ s ∧ s ≤ 6 then "$25K-$75K"
  else if 7 ≤ s ∧ s ≤ 8 then "$75K-$150K"
  else if 9 ≤ s ∧ s ≤ 10 then "$150K-$300K"
  else "$50K-$100K"

/-- The timeline-impact bucket table as the specification words it:
s≤3→"2-4_weeks", s≤6→"1-2_months", s≤8→"2-4_months", else "4-6_months". -/
def timelineBucketSpec (s : Int) : String :=
  if s ≤ 3 then "2-4_weeks"
  else if s ≤ 6 then "1-2_months"
  else if s ≤ 8 then "2-4_months"
  else "4-6_months"

/-- The first failure among the analysis tasks in task-list order, if any:
the exception that `asyncio.gather` propagates.  The tasks are coroutines
that never await, so the event loop runs them to completion in list order
and the earliest raising task wins; the ROI task is total and cannot
fail. -/
def first_task_failure (request : SwitchingAnalysisRequest)
    (industry_config competitor_profile : Value) : Option PyError :=
  match _analyze_switching_barriers request industry_config with
  | .error e => some e
  | .ok _ =>
      match _identify_competitive_opportunities request competitor_profile with
      | .error e => some e
      | .ok _ =>
          match _generate_migration_roadmap request industry_config with
          | .error e => some e
          | .ok _ => none

/-! ### Concrete scenarios used to settle the claims -/

/-- An industry configuration whose single barrier template lacks the
`category` key: the barrier analysis task raises `KeyError('category')`. -/
def cfg_missing_category : Value :=
  .dict [("switching_barriers", .list [.dict []])]

/-- An industry configuration with no barrier templates at all. -/
def cfg_empty : Value := .dict []

/-- A competitor profile whose single vulnerability lacks the `category`
key: the opportunity analysis task raises `KeyError('category')`. -/
def profile_missing_category : Value :=
  .dict [("competitive_assessment",
           .dict [("vulnerabilities", .list [.dict []])])]

/-- A manager where the barrier analysis task is the one that fails. -/
def cm_barrier_failure : ConfigurationManager :=
  ⟨[("ind", cfg_missing_category)], []⟩

/-- A manager where the opportunity analysis task is the one that fails. -/
def cm_opportunity_failure : ConfigurationManager :=
  ⟨[("ind", cfg_empty)], [("comp", profile_missing_category)]⟩

/-- A request naming the industry and competitor of the two managers above. -/
def req_ind_comp : SwitchingAnalysisRequest :=
  { industry := "ind", competitor := "comp", account_profile := .dict [] }

/-- A manager knowing one industry (with an empty document) and no
competitor at all. -/
def cm_known_industry : ConfigurationManager :=
  ⟨[("financial_services", .dict [])], []⟩

/-- A request for that industry and a competitor unknown to the manager. -/
def req_new_competitor : SwitchingAnalysisRequest :=
  { industry := "financial_services", competitor := "newco", account_profile := .dict [] }

/-- The strategy that `analyze_switching_scenario` produces on the
known-industry / unknown-competitor scenario (extracted by evaluation; the
fallback branch is never reached). -/
def strategy_new_competitor : SwitchingStrategy :=
  match analyze_switching_scenario cm_known_industry req_new_competitor with
  | .ok s => s
  | .error _ => ⟨[], [], .dict [], .dict [], .dict [], ""⟩

/-! ## Helper lemmas -/

theorem analyze_eq_core (cm : ConfigurationManager)
    (request : SwitchingAnalysisRequest) :
    analyze_switching_scenario cm request = analyze_scenario_core cm request := by
  unfold analyze_switching_scenario analyze_switching_scenario_timed
  cases analyze_scenario_core cm request <;> rfl

/-- Whenever the orchestration succeeds, the strategy's `opportunities`
field is exactly the output of the opportunity analysis task run on the
resolved competitor profile. -/
theorem core_ok_opportunities (cm : ConfigurationManager)
    (request : SwitchingAnalysisRequest) (s : SwitchingStrategy)
    (h : analyze_scenario_core cm request = .ok s) :
    ∃ cfg, get_industry_config cm request.industry = .ok cfg ∧
      _identify_competitive_opportunities request
        (get_competitor_profile cm request.competitor) = .ok s.opportunities := by
  unfold analyze_scenario_core at h
  cases hic : get_industry_config cm request.industry with
  | error e => rw [hic] at h; simp [bind, Except.bind] at h
  | ok cfg =>
      rw [hic] at h
      simp only [bind, Except.bind] at h
      refine ⟨cfg, rfl, ?_⟩
      cases hbar : _analyze_switching_barriers request cfg with
      | error e => rw [hbar] at h; simp at h
      | ok bs =>
          rw [hbar] at h; dsimp only at h
          cases hopp : _identify_competitive_opportunities request
              (get_competitor_profile cm request.competitor) with
          | error e => rw [hopp] at h; simp at h
          | ok os =>
              rw [hopp] at h; dsimp only at h
              cases hrm : _generate_migration_roadmap request cfg with
              | error e => rw [hrm] at h; simp at h
              | ok rm =>
                  rw [hrm] at h; dsimp only at h
                  cases hm : _define_success_metrics cfg with
                  | error e => rw [hm] at h; simp at h
                  | ok met =>
                      rw [hm] at h; dsimp only at h
                      cases hsum : _generate_executive_summary bs os rm
                          (_calculate_roi_analysis request cfg) with
                      | error e => rw [hsum] at h; simp at h
                      | ok str =>
                          rw [hsum] at h; dsimp only at h
                          simp only [pure, Except.pure, Except.ok.injEq] at h
                          rw [← h]

theorem getSeverity_int (d : List (String × Value)) (s : Int)
    (h : dictLookup d "severity" = some (.int s)) :
    getSeverity (.dict d) = .ok s := by
  simp [getSeverity, Value.pyGet, h, bind, Except.bind]

theorem getSeverity_missing (d : List (String × Value))
    (h : dictLookup d "severity" = none) :
    getSeverity (.dict d) = .ok 5 := by
  simp [getSeverity, Value.pyGet, h, bind, Except.bind]

theorem costRangeLoop_eq_spec (s : Int) :
    costRangeLoop s cost_ranges = costBucketSpec s := by
  simp only [cost_ranges, costRangeLoop, costBucketSpec]

theorem timeline_chain_eq_spec (s : Int) :
    (if s ≤ 3 then "2-4_weeks"
     else if s ≤ 6 then "1-2_months"
     else if s ≤ 8 then "2-4_months"
     else "4-6_months") = timelineBucketSpec s := by
  simp [timelineBucketSpec]

/-! ## Claims -/

/-- C4: for every integer severity `s` found in a barrier template,
`_estimate_barrier_cost` and `_calculate_timeline_impact` are pure
functions of `s` matching the spec's bucket tables ([1,3]→"$10K-$25K",
[4,6]→"$25K-$75K", [7,8]→"$75K-$150K", [9,10]→"$150K-$300K", outside
[1,10]→"$50K-$100K"; s≤3→"2-4_weeks", s≤6→"1-2_months", s≤8→"2-4_months",
else "4-6_months"), boundaries included. -/
theorem C4_severity_bucket_tables (d : List (String × Value)) (s : Int)
    (h : dictLookup d "severity" = some (.int s)) :
    _estimate_barrier_cost (.dict d) = .ok (costBucketSpec s) ∧
    _calculate_timeline_impact (.dict d) = .ok (timelineBucketSpec s) := by
  have hs := getSeverity_int d s h
  constructor
  · simp [_estimate_barrier_cost, hs, costRangeLoop_eq_spec]
  · simp only [_calculate_timeline_impact, hs, bind, Except.bind, timelineBucketSpec]
    split_ifs <;> rfl

/-- C4 witness: concrete boundary severities, via `C4_severity_bucket_tables`. -/
theorem C4_severity_bucket_tables_witness :
    dictLookup [("severity", Value.int 3)] "severity" = some (Value.int 3) ∧
    _estimate_barrier_cost (.dict [("severity", Value.int 3)]) = .ok "$10K-$25K" ∧
    _calculate_timeline_impact (.dict [("severity", Value.int 3)]) = .ok "2-4_weeks" ∧
    _estimate_barrier_cost (.dict [("severity", Value.int 9)]) = .ok "$150K-$300K" ∧
    _calculate_timeline_impact (.dict [("severity", Value.int 9)]) = .ok "4-6_months" ∧
    _estimate_barrier_cost (.dict [("severity", Value.int 11)]) = .ok "$50K-$100K" := by
  have h3 := C4_severity_bucket_tables [("severity", Value.int 3)] 3 rfl
  have h9 := C4_severity_bucket_tables [("severity", Value.int 9)] 9 rfl
  have h11 := C4_severity_bucket_tables [("severity", Value.int 11)] 11 rfl
  exact ⟨rfl, by rw [h3.1]; rfl, by rw [h3.2]; rfl, by rw [h9.1]; rfl, by rw [h9.2]; rfl,
    by rw [h11.1]; rfl⟩

/-- C5: for every vulnerability carrying an integer severity `s`, the
computed success probability is `min 90 (40 + 5*s)`. -/
theorem C5_success_probability (d : List (String × Value)) (s : Int)
    (h : dictLookup d "severity" = some (.int s)) :
    _calculate_success_probability (.dict d) = .ok (min 90 (40 + 5 * s)) := by
  have hs := getSeverity_int d s h
  simp [_calculate_success_probability, hs, Int.mul_comm]

/-- C5 witness: s=1 gives 45, s=10 gives 90, s=11 gives 90 (clamped), via
`C5_success_probability`. -/
theorem C5_success_probability_witness :
    dictLookup [("severity", Value.int 1)] "severity" = some (Value.int 1) ∧
    _calculate_success_probability (.dict [("severity", Value.int 1)]) = .ok 45 ∧
    _calculate_success_probability (.dict [("severity", Value.int 10)]) = .ok 90 ∧
    _calculate_success_probability (.dict [("severity", Value.int 11)]) = .ok 90 := by
  have h1 := C5_success_probability [("severity", Value.int 1)] 1 rfl
  have h10 := C5_success_probability [("severity", Value.int 10)] 10 rfl
  have h11 := C5_success_probability [("severity", Value.int 11)] 11 rfl
  exact ⟨rfl, by rw [h1]; rfl, by rw [h10]; rfl, by rw [h11]; rfl⟩

/-- C7: an industry configuration without the `switching_barriers` key
yields an empty barrier list, not an error. -/
theorem C7_missing_barriers_key (request : SwitchingAnalysisRequest)
    (d : List (String × Value))
    (h : dictLookup d "switching_barriers" = none) :
    _analyze_switching_barriers request (.dict d) = .ok [] := by
  simp [_analyze_switching_barriers, Value.pyGet, h]
  rfl

/-- C7 witness: the empty configuration document, via
`C7_missing_barriers_key`. -/
theorem C7_missing_barriers_key_witness :
    dictLookup ([] : List (String × Value)) "switching_barriers" = none ∧
    _analyze_switching_barriers
      { industry := "financial_services", competitor := "incumbent_leader",
        account_profile := .dict [] } (.dict []) = .ok [] :=
  ⟨rfl, C7_missing_barriers_key _ [] rfl⟩

/-- C10: a barrier template or vulnerability without a `severity` key gets
the default severity 5: cost "$25K-$75K", timeline "1-2_months", success
probability 65, and no error. -/
theorem C10_default_severity (d : List (String × Value))
    (h : dictLookup d "severity" = none) :
    _estimate_barrier_cost (.dict d) = .ok "$25K-$75K" ∧
    _calculate_timeline_impact (.dict d) = .ok "1-2_months" ∧
    _calculate_success_probability (.dict d) = .ok 65 := by
  have hs := getSeverity_missing d h
  refine ⟨?_, ?_, ?_⟩
  · simp only [_estimate_barrier_cost, hs, bind, Except.bind]; rfl
  · simp only [_calculate_timeline_impact, hs, bind, Except.bind]; rfl
  · simp only [_calculate_success_probability, hs, bind, Except.bind]; rfl

/-- C10 witness: the empty template, via `C10_default_severity`. -/
theorem C10_default_severity_witness :
    dictLookup ([] : List (String × Value)) "severity" = none ∧
    _estimate_barrier_cost (.dict []) = .ok "$25K-$75K" ∧
    _calculate_timeline_impact (.dict []) = .ok "1-2_months" ∧
    _calculate_success_probability (.dict []) = .ok 65 := by
  have h := C10_default_severity [] rfl
  exact ⟨rfl, h.1, h.2.1, h.2.2⟩

/-- C2: an industry key unknown to the configuration manager makes
`analyze_switching_scenario` fail with the configuration-not-found error
(the `ValueError` of `get_industry_config`), whatever the rest of the
configuration holds: no default industry document is substituted and no
partial strategy is produced. -/
theorem C2_unknown_industry (cm : ConfigurationManager)
    (request : SwitchingAnalysisRequest)
    (h : dictLookup cm.industry_templates request.industry = none) :
    analyze_switching_scenario cm request =
      .error (.valueError ("Industry template \x27" ++ request.industry ++ "\x27 not found")) := by
  simp [analyze_switching_scenario, analyze_switching_scenario_timed,
        analyze_scenario_core, get_industry_config, h, bind, Except.bind]

/-- C2 witness: an empty configuration manager, via `C2_unknown_industry`. -/
theorem C2_unknown_industry_witness :
    dictLookup (ConfigurationManager.mk [] []).industry_templates "financial_services" = none ∧
    analyze_switching_scenario (ConfigurationManager.mk [] [])
      { industry := "financial_services", competitor := "incumbent_leader",
        account_profile := .dict [] } =
      .error (.valueError "Industry template \x27financial_services\x27 not found") :=
  ⟨rfl,
   C2_unknown_industry (ConfigurationManager.mk [] [])
     { industry := "financial_services", competitor := "incumbent_leader",
       account_profile := .dict [] } rfl⟩

/-- C3: `analyze_switching_scenario` is deterministic — its returned value
does not depend on the two wall-clock readings (the timing observation is
diagnostic only), so two calls with identical request and configuration
yield the same strategy, byte-identical executive summary included. -/
theorem C3_deterministic (cm : ConfigurationManager)
    (request : SwitchingAnalysisRequest) (t₀ t₁ u₀ u₁ : Nat) :
    (analyze_switching_scenario_timed t₀ t₁ cm request).1 =
      (analyze_switching_scenario_timed u₀ u₁ cm request).1 ∧
    (analyze_switching_scenario_timed t₀ t₁ cm request).1 =
      analyze_switching_scenario cm request := by
  unfold analyze_switching_scenario analyze_switching_scenario_timed
  cases analyze_scenario_core cm request <;> exact ⟨rfl, rfl⟩

/-- C8: the ROI analysis task has constant output: the same fixed nested
record for every request and configuration, whose financial projections
are break_even_months=18, roi_percentage=275, net_present_value=2500000,
payback_period="15_months". -/
theorem C8_roi_constant (r₁ r₂ : SwitchingAnalysisRequest) (c₁ c₂ : Value) :
    _calculate_roi_analysis r₁ c₁ = _calculate_roi_analysis r₂ c₂ ∧
    (_calculate_roi_analysis r₁ c₁).lookupKey "financial_projections" =
      some (.dict [("break_even_months", .int 18),
                   ("roi_percentage", .int 275),
                   ("net_present_value", .int 2500000),
                   ("payback_period", .str "15_months")]) :=
  ⟨rfl, rfl⟩

/-- C9: the generated roadmap's `total_timeline` defaults to
"6-12_months" when the `typical_switching_timeline` key is absent from the
industry configuration; an unrecognized phase key gets the generic
fallback activities ["Custom phase activities"], while the three
recognized phase keys get their fixed lookup-table activities. -/
theorem C9_roadmap_defaults :
    (∀ (request : SwitchingAnalysisRequest) (d : List (String × Value)) (v : Value),
      dictLookup d "typical_switching_timeline" = none →
      _generate_migration_roadmap request (.dict d) = .ok v →
      v.lookupKey "total_timeline" = some (.str "6-12_months")) ∧
    (∀ (phase_name : String) (config : Value),
      ¬ (phase_name = "phase_1_foundation" ∨ phase_name = "phase_2_parallel_operation" ∨
         phase_name = "phase_3_full_migration") →
      _generate_phase_activities phase_name config = ["Custom phase activities"]) ∧
    (∀ (config : Value),
      _generate_phase_activities "phase_1_foundation" config =
        ["Requirements analysis and stakeholder alignment",
         "Technical architecture assessment",
         "Migration planning and resource allocation"] ∧
      _generate_phase_activities "phase_2_parallel_operation" config =
        ["Parallel system setup and configuration",
         "Data migration and validation testing",
         "User training and change management"] ∧
      _generate_phase_activities "phase_3_full_migration" config =
        ["Complete system cutover",
         "Business process optimization",
         "Performance monitoring and adjustment"]) := by
  refine ⟨?_, ?_, fun _ => ⟨rfl, rfl, rfl⟩⟩
  · intro request d v htl h
    rcases hx : dictLookup d "timeline_phases" with _ | x
    · simp only [_generate_migration_roadmap, Value.pyGet, hx, htl, bind, Except.bind] at h
      cases h
      rfl
    · cases x <;>
        (simp only [_generate_migration_roadmap, Value.pyGet, hx, htl, bind, Except.bind] at h;
         first
           | (cases h; rfl)
           | cases h)
  · intro phase_name config hne
    push_neg at hne
    obtain ⟨h1, h2, h3⟩ := hne
    have b1 : (phase_name == "phase_1_foundation") = false := beq_eq_false_iff_ne.mpr h1
    have b2 : (phase_name == "phase_2_parallel_operation") = false := beq_eq_false_iff_ne.mpr h2
    have b3 : (phase_name == "phase_3_full_migration") = false := beq_eq_false_iff_ne.mpr h3
    simp [_generate_phase_activities, activity_templates, List.lookup, b1, b2, b3]

/-- C9 witness: the empty configuration document and an unrecognized
phase key, via `C9_roadmap_defaults`. -/
theorem C9_roadmap_defaults_witness :
    dictLookup ([] : List (String × Value)) "typical_switching_timeline" = none ∧
    _generate_migration_roadmap
      { industry := "financial_services", competitor := "incumbent_leader",
        account_profile := .dict [] } (.dict []) =
      .ok (.dict [("total_timeline", .str "6-12_months"),
                  ("phases", .list []),
                  ("critical_milestones", .list []),
                  ("resource_requirements", .dict []),
                  ("risk_mitigation_plan", .dict [])]) ∧
    (Value.dict [("total_timeline", .str "6-12_months"),
                 ("phases", .list []),
                 ("critical_milestones", .list []),
                 ("resource_requirements", .dict []),
                 ("risk_mitigation_plan", .dict [])]).lookupKey "total_timeline" =
      some (.str "6-12_months") ∧
    _generate_phase_activities "phase_0_kickoff" (.dict []) = ["Custom phase activities"] := by
  refine ⟨rfl, rfl, ?_, ?_⟩
  · exact C9_roadmap_defaults.1
      { industry := "financial_services", competitor := "incumbent_leader",
        account_profile := .dict [] } [] _ rfl rfl
  · exact C9_roadmap_defaults.2.1 "phase_0_kickoff" (.dict []) (by simp)

/-- C1 counterexample: two runs in which different tasks produce the first
failure, yet the error surfaced to the caller is the identical value
`KeyError("category")` — the orchestration aborts fail-fast with no
strategy, but surfaces the raw task exception with no identification of
which task produced it attached. -/
theorem C1_counterexample :
    get_industry_config cm_barrier_failure "ind" = .ok cfg_missing_category ∧
    _analyze_switching_barriers req_ind_comp cfg_missing_category =
      .error (.keyError "category") ∧
    analyze_switching_scenario cm_barrier_failure req_ind_comp =
      .error (.keyError "category") ∧
    get_industry_config cm_opportunity_failure "ind" = .ok cfg_empty ∧
    _analyze_switching_barriers req_ind_comp cfg_empty = .ok [] ∧
    get_competitor_profile cm_opportunity_failure "comp" = profile_missing_category ∧
    _identify_competitive_opportunities req_ind_comp profile_missing_category =
      .error (.keyError "category") ∧
    analyze_switching_scenario cm_opportunity_failure req_ind_comp =
      .error (.keyError "category") :=
  ⟨rfl, rfl, rfl, rfl, rfl, rfl, rfl, rfl⟩

/-- C1 (amended): the orchestration is fail-fast — the first failure among
the analysis tasks (in task order; the ROI task is total) aborts the
overall operation and that task's exception is propagated to the caller
unchanged, with no identification of the failing task attached, and no
partially-populated strategy is returned. -/
theorem C1_fail_fast (cm : ConfigurationManager)
    (request : SwitchingAnalysisRequest) (cfg : Value) (e : PyError)
    (hcfg : get_industry_config cm request.industry = .ok cfg)
    (hfail : first_task_failure request cfg
        (get_competitor_profile cm request.competitor) = some e) :
    analyze_switching_scenario cm request = .error e := by
  rw [analyze_eq_core]
  unfold first_task_failure at hfail
  unfold analyze_scenario_core
  rw [hcfg]
  simp only [bind, Except.bind]
  cases hbar : _analyze_switching_barriers request cfg with
  | error e1 =>
      rw [hbar] at hfail
      injection hfail with h
      rw [h]
  | ok bs =>
      rw [hbar] at hfail
      dsimp only at hfail
      cases hopp : _identify_competitive_opportunities request
          (get_competitor_profile cm request.competitor) with
      | error e2 =>
          rw [hopp] at hfail
          injection hfail with h
          rw [h]
      | ok os =>
          rw [hopp] at hfail
          dsimp only at hfail
          cases hrm : _generate_migration_roadmap request cfg with
          | error e3 =>
              rw [hrm] at hfail
              injection hfail with h
              rw [h]
          | ok rm =>
              rw [hrm] at hfail
              dsimp only at hfail
              exact absurd hfail (by simp)

/-- C1 witness: the barrier-failure scenario, via `C1_fail_fast`. -/
theorem C1_fail_fast_witness :
    get_industry_config cm_barrier_failure req_ind_comp.industry = .ok cfg_missing_category ∧
    first_task_failure req_ind_comp cfg_missing_category
      (get_competitor_profile cm_barrier_failure req_ind_comp.competitor) =
      some (.keyError "category") ∧
    analyze_switching_scenario cm_barrier_failure req_ind_comp =
      .error (.keyError "category") :=
  ⟨rfl, rfl,
   C1_fail_fast cm_barrier_failure req_ind_comp cfg_missing_category
     (.keyError "category") rfl rfl⟩

/-- C6 counterexample: a request whose competitor key is unknown on which
`analyze_switching_scenario` does not complete — the industry key is also
unknown, so the run fails with the configuration error instead of
returning a strategy with empty opportunities. -/
theorem C6_counterexample :
    dictLookup (ConfigurationManager.mk [] []).competitive_profiles "newco" = none ∧
    analyze_switching_scenario (ConfigurationManager.mk [] []) req_new_competitor =
      .error (.valueError "Industry template \x27financial_services\x27 not found") :=
  ⟨rfl, rfl⟩

/-- C6 (amended): for every request whose competitor key is unknown,
`get_competitor_profile` never fails and returns the fixed default
document (whose vulnerabilities list is empty), the opportunity analysis
task returns no opportunities, and — provided `analyze_switching_scenario`
does not fail for a reason unrelated to the competitor (such as an unknown
industry key or a malformed industry document) — the resulting strategy
has an empty `opportunities` field. -/
theorem C6_unknown_competitor (cm : ConfigurationManager)
    (request : SwitchingAnalysisRequest)
    (h : dictLookup cm.competitive_profiles request.competitor = none) :
    get_competitor_profile cm request.competitor = _default_competitor_profile ∧
    _identify_competitive_opportunities request
      (get_competitor_profile cm request.competitor) = .ok [] ∧
    ∀ s, analyze_switching_scenario cm request = .ok s → s.opportunities = [] := by
  have hp : get_competitor_profile cm request.competitor = _default_competitor_profile := by
    simp [get_competitor_profile, h]
  have hopp : _identify_competitive_opportunities request
      (get_competitor_profile cm request.competitor) = .ok [] := by
    rw [hp]; rfl
  refine ⟨hp, hopp, ?_⟩
  intro s hs
  rw [analyze_eq_core] at hs
  obtain ⟨cfg, -, hopp2⟩ := core_ok_opportunities cm request s hs
  rw [hopp] at hopp2
  injection hopp2 with h2
  exact h2.symm

/-- C6 witness: a known industry with an unknown competitor, via
`C6_unknown_competitor`. -/
theorem C6_unknown_competitor_witness :
    dictLookup cm_known_industry.competitive_profiles "newco" = none ∧
    analyze_switching_scenario cm_known_industry req_new_competitor =
      .ok strategy_new_competitor ∧
    strategy_new_competitor.opportunities = [] :=
  ⟨rfl, rfl,
   (C6_unknown_competitor cm_known_industry req_new_competitor rfl).2.2
     strategy_new_competitor rfl⟩

end SwitchingCost
